import Mathlib

/-!
Shallow embedding of the StackAllocator repository (stack_alloc.c / stack_alloc.h /
stack_alloc_types.h / stack_alloc_cfg.h).

Addresses are 32-bit unsigned integers (the source casts pointers to `uint32` for all
arithmetic), modelled as `Nat` with explicit reduction modulo `2^32` wherever the source's
`uint32` arithmetic can wrap.  A NULL pointer is address `0`; an absent instance handle is
`Option.none`.  Memory is a map from addresses to byte values, threaded only through the
operations that the source lets touch memory (`StackAlloc_Init` performs no store;
`StackAlloc_Calloc` zeroes the returned region via the external `mem_set` primitive).
-/

/-- Size of the 32-bit address space: `2^32`. -/
def U32 : Nat := 4294967296

/-- `SIZE_MAX` from stack_alloc_types.h: `(uint32)-1`, the maximum value of `uint32`. -/
def SIZE_MAX : Nat := 4294967295

/-- `STACK_ALLOC_ALIGNMENT` from stack_alloc_cfg.h (a power of two). -/
def STACK_ALLOC_ALIGNMENT : Nat := 8

/-- `STACK_ALLOC_OK` from stack_alloc_types.h. -/
def STACK_ALLOC_OK : Nat := 0x00

/-- `STACK_ALLOC_ERROR_INVALID_PARAM` from stack_alloc_types.h. -/
def STACK_ALLOC_ERROR_INVALID_PARAM : Nat := 0x01

/-- `STACK_ALLOC_ERROR_OUT_OF_MEMORY` from stack_alloc_types.h. -/
def STACK_ALLOC_ERROR_OUT_OF_MEMORY : Nat := 0x02

/-- `STACK_ALLOC_ERROR_CORRUPTED_STATE` from stack_alloc_types.h. -/
def STACK_ALLOC_ERROR_CORRUPTED_STATE : Nat := 0x03

/-- `STACK_ALLOC_ERROR_INVALID_MARKER` from stack_alloc_types.h. -/
def STACK_ALLOC_ERROR_INVALID_MARKER : Nat := 0x04

/-- `STACK_ALLOC_ERROR_NOT_LIFO` from stack_alloc_types.h (never produced by the code). -/
def STACK_ALLOC_ERROR_NOT_LIFO : Nat := 0x05

/-- The `TStack_alloc` struct from stack_alloc_types.h.  The three pointer fields hold
32-bit addresses. -/
structure TStack_alloc where
  buffer_start : Nat
  buffer_end : Nat
  current : Nat
  capacity : Nat
deriving DecidableEq, Repr

/-- `AlignUp` from stack_alloc.c: rounds `address` up to the next multiple of `alignment`.
The source's `address + (alignment - remainder)` is `uint32` addition, hence the `% U32`. -/
def AlignUp (address alignment : Nat) : Nat :=
  let remainder := address % alignment
  if remainder = 0 then address
  else (address + (alignment - remainder)) % U32

/-- `GetAlignedStart` from stack_alloc.c: the buffer start rounded up to
`STACK_ALLOC_ALIGNMENT`. -/
def GetAlignedStart (sa : TStack_alloc) : Nat :=
  AlignUp sa.buffer_start STACK_ALLOC_ALIGNMENT

/-- `StackAlloc_Init` from stack_alloc.c.  Returns the error code, the (possibly updated)
instance, and the memory, which the source never writes.  `buffer_end` is the `uint32`
value of the pointer `buffer_start + buffer_size`. -/
def StackAlloc_Init (sa : Option TStack_alloc) (buffer buffer_size : Nat)
    (mem : Nat → Nat) : Nat × Option TStack_alloc × (Nat → Nat) :=
  match sa with
  | none => (STACK_ALLOC_ERROR_INVALID_PARAM, none, mem)
  | some s =>
    if buffer = 0 ∨ buffer_size < STACK_ALLOC_ALIGNMENT then
      (STACK_ALLOC_ERROR_INVALID_PARAM, some s, mem)
    else
      let s' : TStack_alloc :=
        { buffer_start := buffer
          buffer_end := (buffer + buffer_size) % U32
          current := AlignUp buffer STACK_ALLOC_ALIGNMENT
          capacity := buffer_size }
      if s'.current ≥ s'.buffer_end then
        (STACK_ALLOC_ERROR_OUT_OF_MEMORY, some s', mem)
      else
        (STACK_ALLOC_OK, some s', mem)

/-- `StackAlloc_Alloc` from stack_alloc.c.  Returns the allocated address (none on
failure) and the possibly updated instance.  `aligned_ptr + size` is 32-bit pointer
arithmetic, hence the `% U32`; the source's `new_top < aligned_ptr` test detects exactly
that wrap. -/
def StackAlloc_Alloc (sa : Option TStack_alloc) (size : Nat) :
    Option Nat × Option TStack_alloc :=
  match sa with
  | none => (none, none)
  | some s =>
    if size = 0 then (none, some s)
    else
      let aligned_ptr := AlignUp s.current STACK_ALLOC_ALIGNMENT
      let new_top := (aligned_ptr + size) % U32
      if new_top < aligned_ptr ∨ new_top > s.buffer_end then (none, some s)
      else (some aligned_ptr, some { s with current := new_top })

/-- Modelled from the spec: the memory-zeroing primitive `mem_set` from
helper_routines.h, which is not among the repository sources; the spec specifies it at
its interface boundary as: given an address and a byte count, sets every byte in that
range to the given value (the allocator only uses value `0`). -/
def mem_set (mem : Nat → Nat) (ptr value n : Nat) : Nat → Nat :=
  fun a => if ptr ≤ a ∧ a < ptr + n then value else mem a

/-- `StackAlloc_Calloc` from stack_alloc.c.  The overflow guard divides before any
multiplication; `num * size` is `uint32` multiplication, hence the `% U32` (redundant
once the guard has passed). -/
def StackAlloc_Calloc (sa : Option TStack_alloc) (num size : Nat)
    (mem : Nat → Nat) : Option Nat × Option TStack_alloc × (Nat → Nat) :=
  if num = 0 ∨ size = 0 then (none, sa, mem)
  else if num > SIZE_MAX / size then (none, sa, mem)
  else
    let total := (num * size) % U32
    match StackAlloc_Alloc sa total with
    | (none, sa') => (none, sa', mem)
    | (some p, sa') => (some p, sa', mem_set mem p 0 total)

/-- `StackAlloc_FreeToMarker` from stack_alloc.c.  The source's alignment test
`(uint32)mark & (STACK_ALLOC_ALIGNMENT - 1)` equals `mark % STACK_ALLOC_ALIGNMENT`
because the alignment is a power of two. -/
def StackAlloc_FreeToMarker (sa : Option TStack_alloc) (marker : Nat) :
    Nat × Option TStack_alloc :=
  match sa with
  | none => (STACK_ALLOC_ERROR_INVALID_PARAM, none)
  | some s =>
    if marker = 0 then (STACK_ALLOC_ERROR_INVALID_PARAM, some s)
    else if marker < s.buffer_start ∨ marker ≥ s.current then
      (STACK_ALLOC_ERROR_INVALID_MARKER, some s)
    else if marker ≠ 0 ∧ marker % STACK_ALLOC_ALIGNMENT ≠ 0 then
      (STACK_ALLOC_ERROR_INVALID_MARKER, some s)
    else
      (STACK_ALLOC_OK, some { s with current := marker })

/-- `StackAlloc_Reset` from stack_alloc.c: safe on an absent handle, otherwise rewinds
`current` to the aligned start. -/
def StackAlloc_Reset (sa : Option TStack_alloc) : Option TStack_alloc :=
  match sa with
  | none => none
  | some s => some { s with current := GetAlignedStart s }

/-- `StackAlloc_GetMarker`.  Modelled from the spec: the function is declared in
stack_alloc.h but its definition is not among the repository sources; the spec says it
returns the current cursor value (`current`) as an opaque marker, or none when the
instance handle is absent, without mutating any state (its C parameter is a pointer to
const). -/
def StackAlloc_GetMarker (sa : Option TStack_alloc) : Option Nat :=
  match sa with
  | none => none
  | some s => some s.current

/-- `StackAlloc_GetCapacity` from stack_alloc.c. -/
def StackAlloc_GetCapacity (sa : Option TStack_alloc) : Nat :=
  match sa with
  | none => 0
  | some s => s.capacity

/-- `StackAlloc_GetUsed` from stack_alloc.c: the `uint32` value of the pointer
difference `current - aligned_start` (32-bit wrapping subtraction). -/
def StackAlloc_GetUsed (sa : Option TStack_alloc) : Nat :=
  match sa with
  | none => 0
  | some s => (s.current + U32 - GetAlignedStart s) % U32

/-- `StackAlloc_GetAvailable` from stack_alloc.c: the `uint32` value of the pointer
difference `buffer_end - current` (32-bit wrapping subtraction). -/
def StackAlloc_GetAvailable (sa : Option TStack_alloc) : Nat :=
  match sa with
  | none => 0
  | some s => (s.buffer_end + U32 - s.current) % U32

/-- `StackAlloc_Validate` from stack_alloc.c. -/
def StackAlloc_Validate (sa : Option TStack_alloc) : Nat :=
  match sa with
  | none => STACK_ALLOC_ERROR_CORRUPTED_STATE
  | some s =>
    if s.buffer_start = 0 ∨ s.buffer_end = 0 then STACK_ALLOC_ERROR_CORRUPTED_STATE
    else if s.buffer_start > s.buffer_end then STACK_ALLOC_ERROR_CORRUPTED_STATE
    else if s.current < GetAlignedStart s ∨ s.current > s.buffer_end then
      STACK_ALLOC_ERROR_CORRUPTED_STATE
    else STACK_ALLOC_OK

/-- The spec's data-model invariant chain `bufferStart <= alignedStart <= current <=
bufferEnd`. -/
abbrev Invariant (s : TStack_alloc) : Prop :=
  s.buffer_start ≤ GetAlignedStart s ∧
  GetAlignedStart s ≤ s.current ∧
  s.current ≤ s.buffer_end

/-- Address-space headroom: the one-past-end pointer, plus the at most
`STACK_ALLOC_ALIGNMENT - 1` bytes of alignment padding, stays representable.  Real C
buffers satisfy this; without it the `uint32` cast of `AlignUp` can wrap. -/
abbrev Headroom (s : TStack_alloc) : Prop :=
  s.buffer_end + STACK_ALLOC_ALIGNMENT ≤ U32

example : StackAlloc_Init (some ⟨0, 0, 0, 0⟩) 8 56 (fun _ => 0) =
    (STACK_ALLOC_OK, some ⟨8, 64, 8, 56⟩, fun _ => 0) := rfl

example : StackAlloc_Alloc (some ⟨8, 64, 8, 56⟩) 10 = (some 8, some ⟨8, 64, 18, 56⟩) := by
  decide

theorem AlignUp_mod (a : Nat) :
    AlignUp a STACK_ALLOC_ALIGNMENT % STACK_ALLOC_ALIGNMENT = 0 := by
  simp only [AlignUp, STACK_ALLOC_ALIGNMENT, U32]
  split <;> omega

theorem AlignUp_bounds (a : Nat) (h : a + STACK_ALLOC_ALIGNMENT ≤ U32) :
    a ≤ AlignUp a STACK_ALLOC_ALIGNMENT ∧
    AlignUp a STACK_ALLOC_ALIGNMENT < a + STACK_ALLOC_ALIGNMENT := by
  simp only [AlignUp, STACK_ALLOC_ALIGNMENT, U32] at *
  split <;> omega

theorem AlignUp_le_of_aligned (b m : Nat) (hb : b ≤ AlignUp b STACK_ALLOC_ALIGNMENT)
    (hm : m % STACK_ALLOC_ALIGNMENT = 0) (hbm : b ≤ m) :
    AlignUp b STACK_ALLOC_ALIGNMENT ≤ m := by
  by_cases hr : b % STACK_ALLOC_ALIGNMENT = 0
  · simpa only [AlignUp, hr, if_pos] using hbm
  · simp only [AlignUp, if_neg hr] at hb ⊢
    simp only [STACK_ALLOC_ALIGNMENT, U32] at *
    omega

theorem StackAlloc_Alloc_eq (s : TStack_alloc) (size : Nat) :
    StackAlloc_Alloc (some s) size =
      if size = 0 ∨
         (AlignUp s.current STACK_ALLOC_ALIGNMENT + size) % U32 <
           AlignUp s.current STACK_ALLOC_ALIGNMENT ∨
         (AlignUp s.current STACK_ALLOC_ALIGNMENT + size) % U32 > s.buffer_end then
        (none, some s)
      else
        (some (AlignUp s.current STACK_ALLOC_ALIGNMENT),
         some { s with
                  current := (AlignUp s.current STACK_ALLOC_ALIGNMENT + size) % U32 }) := by
  by_cases h0 : size = 0
  · simp [StackAlloc_Alloc, h0]
  · by_cases hw : (AlignUp s.current STACK_ALLOC_ALIGNMENT + size) % U32 <
        AlignUp s.current STACK_ALLOC_ALIGNMENT <;>
    by_cases ho : (AlignUp s.current STACK_ALLOC_ALIGNMENT + size) % U32 > s.buffer_end <;>
    simp [StackAlloc_Alloc, h0, hw, ho]

theorem StackAlloc_FreeToMarker_eq (s : TStack_alloc) (marker : Nat) :
    StackAlloc_FreeToMarker (some s) marker =
      if marker = 0 then (STACK_ALLOC_ERROR_INVALID_PARAM, some s)
      else if marker < s.buffer_start ∨ s.current ≤ marker ∨
              marker % STACK_ALLOC_ALIGNMENT ≠ 0 then
        (STACK_ALLOC_ERROR_INVALID_MARKER, some s)
      else (STACK_ALLOC_OK, some { s with current := marker }) := by
  by_cases h0 : marker = 0
  · simp [StackAlloc_FreeToMarker, h0]
  · by_cases hA : marker < s.buffer_start <;>
    by_cases hB : s.current ≤ marker <;>
    by_cases hC : marker % STACK_ALLOC_ALIGNMENT = 0 <;>
    simp [StackAlloc_FreeToMarker, h0, hA, hB, hC]

theorem StackAlloc_Init_eq (s : TStack_alloc) (buffer buffer_size : Nat) (mem : Nat → Nat) :
    StackAlloc_Init (some s) buffer buffer_size mem =
      if buffer = 0 ∨ buffer_size < STACK_ALLOC_ALIGNMENT then
        (STACK_ALLOC_ERROR_INVALID_PARAM, some s, mem)
      else
        ((if (buffer + buffer_size) % U32 ≤ AlignUp buffer STACK_ALLOC_ALIGNMENT then
            STACK_ALLOC_ERROR_OUT_OF_MEMORY
          else STACK_ALLOC_OK),
         some { buffer_start := buffer, buffer_end := (buffer + buffer_size) % U32,
                current := AlignUp buffer STACK_ALLOC_ALIGNMENT, capacity := buffer_size },
         mem) := by
  by_cases h0 : buffer = 0 ∨ buffer_size < STACK_ALLOC_ALIGNMENT
  · simp [StackAlloc_Init, h0]
  · by_cases h1 : (buffer + buffer_size) % U32 ≤ AlignUp buffer STACK_ALLOC_ALIGNMENT
    · simp [StackAlloc_Init, h0, h1]
    · simp [StackAlloc_Init, h0, h1]

/-- Claim C1: for every instance and size, `StackAlloc_Alloc` returns none and leaves the
instance unchanged when the instance handle is absent, when `size = 0`, when
`alignUp(current, ALIGNMENT) + size` wraps below the aligned pointer, or when it exceeds
`buffer_end`; otherwise it sets `current` to `alignUp(current, ALIGNMENT) + size` and
returns `alignUp(current, ALIGNMENT)`. -/
theorem StackAlloc_Alloc_spec (s : TStack_alloc) (size : Nat) :
    StackAlloc_Alloc none size = (none, none) ∧
    StackAlloc_Alloc (some s) size =
      (if size = 0 ∨
          (AlignUp s.current STACK_ALLOC_ALIGNMENT + size) % U32 <
            AlignUp s.current STACK_ALLOC_ALIGNMENT ∨
          (AlignUp s.current STACK_ALLOC_ALIGNMENT + size) % U32 > s.buffer_end then
         (none, some s)
       else
         (some (AlignUp s.current STACK_ALLOC_ALIGNMENT),
          some { s with
                   current := (AlignUp s.current STACK_ALLOC_ALIGNMENT + size) % U32 })) :=
  ⟨rfl, StackAlloc_Alloc_eq s size⟩

/-- Claim C2: `StackAlloc_FreeToMarker` returns `INVALID_PARAM` exactly when the instance
or marker handle is absent, `INVALID_MARKER` exactly when the marker lies outside
`[buffer_start, current)` (a marker equal to `current` is rejected) or is not aligned to
`STACK_ALLOC_ALIGNMENT`, and otherwise succeeds setting `current := marker`; every
failing outcome leaves the instance unchanged. -/
theorem StackAlloc_FreeToMarker_spec (s : TStack_alloc) (marker : Nat) :
    StackAlloc_FreeToMarker none marker = (STACK_ALLOC_ERROR_INVALID_PARAM, none) ∧
    StackAlloc_FreeToMarker (some s) marker =
      (if marker = 0 then (STACK_ALLOC_ERROR_INVALID_PARAM, some s)
       else if marker < s.buffer_start ∨ s.current ≤ marker ∨
               marker % STACK_ALLOC_ALIGNMENT ≠ 0 then
         (STACK_ALLOC_ERROR_INVALID_MARKER, some s)
       else (STACK_ALLOC_OK, some { s with current := marker })) :=
  ⟨rfl, StackAlloc_FreeToMarker_eq s marker⟩

/-- Claim C3: `StackAlloc_Init` returns `INVALID_PARAM` exactly when the instance handle
is absent, the buffer address is absent, or `buffer_size < STACK_ALLOC_ALIGNMENT`;
otherwise it stamps `buffer_start := buffer`, `buffer_end := buffer + buffer_size`
(32-bit pointer arithmetic), `capacity := buffer_size`, `current := alignedStart`, and
returns `OUT_OF_MEMORY` when no space remains past the aligned start, else `OK`; memory
contents are never touched. -/
theorem StackAlloc_Init_spec (s : TStack_alloc) (buffer buffer_size : Nat)
    (mem : Nat → Nat) :
    StackAlloc_Init none buffer buffer_size mem =
      (STACK_ALLOC_ERROR_INVALID_PARAM, none, mem) ∧
    StackAlloc_Init (some s) buffer buffer_size mem =
      (if buffer = 0 ∨ buffer_size < STACK_ALLOC_ALIGNMENT then
         (STACK_ALLOC_ERROR_INVALID_PARAM, some s, mem)
       else
         ((if (buffer + buffer_size) % U32 ≤ AlignUp buffer STACK_ALLOC_ALIGNMENT then
             STACK_ALLOC_ERROR_OUT_OF_MEMORY
           else STACK_ALLOC_OK),
          some { buffer_start := buffer, buffer_end := (buffer + buffer_size) % U32,
                 current := AlignUp buffer STACK_ALLOC_ALIGNMENT, capacity := buffer_size },
          mem)) :=
  ⟨rfl, StackAlloc_Init_eq s buffer buffer_size mem⟩

theorem alloc_some_facts (s : TStack_alloc) (size p : Nat) (s' : Option TStack_alloc)
    (hInv : Invariant s) (hHead : Headroom s) (hsize : size < U32)
    (h : StackAlloc_Alloc (some s) size = (some p, s')) :
    p % STACK_ALLOC_ALIGNMENT = 0 ∧ s.buffer_start ≤ p ∧ p < s.buffer_end := by
  rw [StackAlloc_Alloc_eq] at h
  split at h
  next hc => simp at h
  next hc =>
    simp only [Prod.mk.injEq, Option.some.injEq] at h
    obtain ⟨hp, -⟩ := h
    subst hp
    have hm := AlignUp_mod s.current
    have hcur : s.current + STACK_ALLOC_ALIGNMENT ≤ U32 := by
      simp only [Invariant, Headroom, GetAlignedStart, STACK_ALLOC_ALIGNMENT, U32] at *
      omega
    have hb := AlignUp_bounds s.current hcur
    push_neg at hc
    simp only [Invariant, Headroom, GetAlignedStart, STACK_ALLOC_ALIGNMENT, U32] at *
    omega

theorem alloc_preserves (s s2 : TStack_alloc) (size p : Nat)
    (hInv : Invariant s) (hHead : Headroom s) (hsize : size < U32)
    (h : StackAlloc_Alloc (some s) size = (some p, some s2)) :
    Invariant s2 ∧ Headroom s2 := by
  rw [StackAlloc_Alloc_eq] at h
  split at h
  next hc => simp at h
  next hc =>
    simp only [Prod.mk.injEq, Option.some.injEq] at h
    obtain ⟨-, hs2⟩ := h
    subst hs2
    have hcur : s.current + STACK_ALLOC_ALIGNMENT ≤ U32 := by
      simp only [Invariant, Headroom, GetAlignedStart, STACK_ALLOC_ALIGNMENT, U32] at *
      omega
    have hb := AlignUp_bounds s.current hcur
    push_neg at hc
    simp only [Invariant, Headroom, GetAlignedStart, STACK_ALLOC_ALIGNMENT, U32] at *
    omega

theorem calloc_some (sa : Option TStack_alloc) (num esize : Nat) (mem : Nat → Nat)
    (p : Nat) (s2 : Option TStack_alloc) (mem' : Nat → Nat)
    (h : StackAlloc_Calloc sa num esize mem = (some p, s2, mem')) :
    StackAlloc_Alloc sa ((num * esize) % U32) = (some p, s2) ∧
    mem' = mem_set mem p 0 ((num * esize) % U32) := by
  simp only [StackAlloc_Calloc] at h
  split at h
  next hz => simp at h
  next hz =>
    split at h
    next hov => simp at h
    next hov =>
      rcases hA : StackAlloc_Alloc sa ((num * esize) % U32) with ⟨q, sa2⟩
      rw [hA] at h
      cases q with
      | none => simp at h
      | some q =>
        simp only [Prod.mk.injEq, Option.some.injEq] at h
        obtain ⟨hq, hs, hm⟩ := h
        subst hq hs hm
        exact ⟨rfl, rfl⟩

/-- Counterexample to claim C4 as stated: starting from a freshly initialized instance
(buffer address 8, size 56), a successful `StackAlloc_Alloc` of 10 bytes leaves
`current = 18`, which is not a multiple of `STACK_ALLOC_ALIGNMENT`, even though the
operation returned successfully. -/
theorem StackAlloc_alloc_leaves_current_unaligned :
    (StackAlloc_Init (some ⟨0, 0, 0, 0⟩) 8 56 (fun _ => 0)).1 = STACK_ALLOC_OK ∧
    (StackAlloc_Init (some ⟨0, 0, 0, 0⟩) 8 56 (fun _ => 0)).2.1 = some ⟨8, 64, 8, 56⟩ ∧
    StackAlloc_Alloc (some ⟨8, 64, 8, 56⟩) 10 = (some 8, some ⟨8, 64, 18, 56⟩) ∧
    (⟨8, 64, 18, 56⟩ : TStack_alloc).current % STACK_ALLOC_ALIGNMENT ≠ 0 := by
  refine ⟨rfl, rfl, by decide, by decide⟩

/-- Claim C4 (amended): after every public mutating operation that returns successfully
on an initialized instance whose buffer keeps `STACK_ALLOC_ALIGNMENT` bytes of headroom
below the top of the 32-bit address space, the chain
`buffer_start ≤ alignedStart ≤ current ≤ buffer_end` holds; `current` is a multiple of
`STACK_ALLOC_ALIGNMENT` after `Init`, `FreeToMarker` and `Reset`, but a successful
`Alloc` sets `current = alignedPtr + size`, which is unaligned whenever `size` is not a
multiple of the alignment. -/
theorem StackAlloc_invariant_preservation :
    (∀ s s2 buffer buffer_size mem mem' r,
        buffer + buffer_size + STACK_ALLOC_ALIGNMENT ≤ U32 →
        StackAlloc_Init (some s) buffer buffer_size mem = (r, some s2, mem') →
        r = STACK_ALLOC_OK →
        Invariant s2 ∧ Headroom s2 ∧ s2.current % STACK_ALLOC_ALIGNMENT = 0) ∧
    (∀ s s2 size p, Invariant s → Headroom s → size < U32 →
        StackAlloc_Alloc (some s) size = (some p, some s2) →
        Invariant s2 ∧ Headroom s2) ∧
    (∀ s s2 num esize p mem mem', Invariant s → Headroom s →
        StackAlloc_Calloc (some s) num esize mem = (some p, some s2, mem') →
        Invariant s2 ∧ Headroom s2) ∧
    (∀ s s2 marker, Invariant s →
        StackAlloc_FreeToMarker (some s) marker = (STACK_ALLOC_OK, some s2) →
        Invariant s2 ∧ s2.current % STACK_ALLOC_ALIGNMENT = 0) ∧
    (∀ s, Invariant s →
        StackAlloc_Reset (some s) = some { s with current := GetAlignedStart s } ∧
        Invariant { s with current := GetAlignedStart s } ∧
        GetAlignedStart s % STACK_ALLOC_ALIGNMENT = 0) := by
  refine ⟨?_, ?_, ?_, ?_, ?_⟩
  · intro s s2 buffer buffer_size mem mem' r hroom h hr
    subst hr
    rw [StackAlloc_Init_eq] at h
    split at h
    next h0 => simp [STACK_ALLOC_ERROR_INVALID_PARAM, STACK_ALLOC_OK] at h
    next h0 =>
      split at h
      next h1 => simp [STACK_ALLOC_ERROR_OUT_OF_MEMORY, STACK_ALLOC_OK] at h
      next h1 =>
        simp only [Prod.mk.injEq, Option.some.injEq] at h
        obtain ⟨-, hs2, -⟩ := h
        subst hs2
        have hbuf : buffer + STACK_ALLOC_ALIGNMENT ≤ U32 := by
          simp only [STACK_ALLOC_ALIGNMENT, U32] at *
          omega
        have hb := AlignUp_bounds buffer hbuf
        have hm := AlignUp_mod buffer
        push_neg at h0 h1
        simp only [Invariant, Headroom, GetAlignedStart, STACK_ALLOC_ALIGNMENT, U32] at *
        omega
  · intro s s2 size p hInv hHead hsize h
    exact alloc_preserves s s2 size p hInv hHead hsize h
  · intro s s2 num esize p mem mem' hInv hHead h
    have hc := calloc_some (some s) num esize mem p (some s2) mem' h
    exact alloc_preserves s s2 ((num * esize) % U32) p hInv hHead
      (Nat.mod_lt _ (by decide)) hc.1
  · intro s s2 marker hInv h
    rw [StackAlloc_FreeToMarker_eq] at h
    split at h
    next h0 => simp [STACK_ALLOC_ERROR_INVALID_PARAM, STACK_ALLOC_OK] at h
    next h0 =>
      split at h
      next hbad => simp [STACK_ALLOC_ERROR_INVALID_MARKER, STACK_ALLOC_OK] at h
      next hbad =>
        simp only [Prod.mk.injEq, Option.some.injEq] at h
        obtain ⟨-, hs2⟩ := h
        subst hs2
        push_neg at hbad
        have hge := AlignUp_le_of_aligned s.buffer_start marker hInv.1 hbad.2.2 hbad.1
        simp only [Invariant, GetAlignedStart, STACK_ALLOC_ALIGNMENT, U32] at *
        omega
  · intro s hInv
    refine ⟨rfl, ?_⟩
    have hm := AlignUp_mod s.buffer_start
    simp only [Invariant, GetAlignedStart, STACK_ALLOC_ALIGNMENT, U32] at *
    omega

/-- Witness for the amended C4 theorem at concrete inputs. -/
theorem StackAlloc_invariant_preservation_witness :
    (Invariant ⟨8, 64, 18, 56⟩ ∧ Headroom ⟨8, 64, 18, 56⟩) ∧
    (Invariant ⟨8, 64, 16, 56⟩ ∧
      (⟨8, 64, 16, 56⟩ : TStack_alloc).current % STACK_ALLOC_ALIGNMENT = 0) := by
  have h := StackAlloc_invariant_preservation
  have h2 := h.2.1 ⟨8, 64, 8, 56⟩ ⟨8, 64, 18, 56⟩ 10 8
    (by decide) (by decide) (by decide) (by decide)
  have h4 := h.2.2.2.1 ⟨8, 64, 32, 56⟩ ⟨8, 64, 16, 56⟩ 16 (by decide) (by decide)
  exact ⟨h2, h4⟩

/-- Counterexample to claim C5 as stated: from a state reached by `Init` with buffer
`0xFFFFFF00` and size `0xFF` followed by a successful `Alloc` of `0xF9` bytes — a state
satisfying the full data-model invariant — a further `Alloc` of 8 bytes succeeds and
returns address `0`: `AlignUp(0xFFFFFFF9, 8)` wraps to `0` in `uint32`, the
`new_top < aligned_ptr` guard does not fire, and the returned address lies outside
`[buffer_start, buffer_end)` (it is even NULL). -/
theorem StackAlloc_alloc_returns_address_outside_buffer :
    (StackAlloc_Init (some ⟨0, 0, 0, 0⟩) 4294967040 255 (fun _ => 0)).1 =
      STACK_ALLOC_OK ∧
    (StackAlloc_Init (some ⟨0, 0, 0, 0⟩) 4294967040 255 (fun _ => 0)).2.1 =
      some ⟨4294967040, 4294967295, 4294967040, 255⟩ ∧
    StackAlloc_Alloc (some ⟨4294967040, 4294967295, 4294967040, 255⟩) 249 =
      (some 4294967040, some ⟨4294967040, 4294967295, 4294967289, 255⟩) ∧
    Invariant ⟨4294967040, 4294967295, 4294967289, 255⟩ ∧
    StackAlloc_Alloc (some ⟨4294967040, 4294967295, 4294967289, 255⟩) 8 =
      (some 0, some ⟨4294967040, 4294967295, 8, 255⟩) ∧
    ¬((0 : Nat) % STACK_ALLOC_ALIGNMENT = 0 ∧
      (⟨4294967040, 4294967295, 4294967289, 255⟩ : TStack_alloc).buffer_start ≤ 0 ∧
      (0 : Nat) < (⟨4294967040, 4294967295, 4294967289, 255⟩ : TStack_alloc).buffer_end) :=
  ⟨rfl, rfl, by decide, by decide, by decide, by decide⟩

/-- Claim C5 (amended): every successful `StackAlloc_Alloc` or `StackAlloc_Calloc` on an
initialized instance whose buffer keeps `STACK_ALLOC_ALIGNMENT` bytes of address-space
headroom below the top of the 32-bit address space returns an address that is a multiple
of `STACK_ALLOC_ALIGNMENT` and lies in the half-open range
`[buffer_start, buffer_end)`; without the headroom proviso the `uint32` wrap of `AlignUp`
can make a successful allocation return an address outside the buffer. -/
theorem StackAlloc_Alloc_aligned_in_buffer :
    (∀ s s' size p, Invariant s → Headroom s → size < U32 →
        StackAlloc_Alloc (some s) size = (some p, s') →
        p % STACK_ALLOC_ALIGNMENT = 0 ∧ s.buffer_start ≤ p ∧ p < s.buffer_end) ∧
    (∀ s s' num esize p mem mem', Invariant s → Headroom s →
        StackAlloc_Calloc (some s) num esize mem = (some p, s', mem') →
        p % STACK_ALLOC_ALIGNMENT = 0 ∧ s.buffer_start ≤ p ∧ p < s.buffer_end) := by
  constructor
  · intro s s' size p hInv hHead hsize h
    exact alloc_some_facts s size p s' hInv hHead hsize h
  · intro s s' num esize p mem mem' hInv hHead h
    have hc := calloc_some (some s) num esize mem p s' mem' h
    exact alloc_some_facts s ((num * esize) % U32) p s' hInv hHead
      (Nat.mod_lt _ (by decide)) hc.1

/-- Witness for C5 at concrete inputs. -/
theorem StackAlloc_Alloc_aligned_in_buffer_witness :
    (8 : Nat) % STACK_ALLOC_ALIGNMENT = 0 ∧
    (⟨8, 64, 8, 56⟩ : TStack_alloc).buffer_start ≤ 8 ∧
    (8 : Nat) < (⟨8, 64, 8, 56⟩ : TStack_alloc).buffer_end := by
  have h := StackAlloc_Alloc_aligned_in_buffer
  exact h.1 ⟨8, 64, 8, 56⟩ (some ⟨8, 64, 18, 56⟩) 10 8
    (by decide) (by decide) (by decide) (by decide)

/-- Claim C6: `StackAlloc_GetMarker` returns the current cursor value as an opaque
marker, and none when the instance handle is absent; it is a pure query on the instance
state. -/
theorem StackAlloc_GetMarker_spec (s : TStack_alloc) :
    StackAlloc_GetMarker (some s) = some s.current ∧
    StackAlloc_GetMarker none = none :=
  ⟨rfl, rfl⟩

/-- Claim C8: on every instance satisfying the data-model invariant (as established and
preserved by the public operations), `GetUsed + GetAvailable = buffer_end -
alignedStart`. -/
theorem StackAlloc_used_plus_available (s : TStack_alloc) (hInv : Invariant s)
    (hU : s.buffer_end < U32) :
    StackAlloc_GetUsed (some s) + StackAlloc_GetAvailable (some s) =
      s.buffer_end - GetAlignedStart s := by
  simp only [StackAlloc_GetUsed, StackAlloc_GetAvailable, Invariant, GetAlignedStart,
    STACK_ALLOC_ALIGNMENT, U32] at *
  omega

/-- Witness for C8 at a concrete post-allocation state. -/
theorem StackAlloc_used_plus_available_witness :
    StackAlloc_GetUsed (some ⟨8, 64, 18, 56⟩) +
      StackAlloc_GetAvailable (some ⟨8, 64, 18, 56⟩) =
      (⟨8, 64, 18, 56⟩ : TStack_alloc).buffer_end - GetAlignedStart ⟨8, 64, 18, 56⟩ :=
  StackAlloc_used_plus_available ⟨8, 64, 18, 56⟩ (by decide) (by decide)

/-- Claim C10: every marker accepted by `StackAlloc_FreeToMarker` on an instance
satisfying the data-model invariant lies in `[alignedStart, current)` — the alignment
check together with the `buffer_start` range check implies `marker ≥ alignedStart` — and
a successful `FreeToMarker` therefore preserves `alignedStart ≤ current`. -/
theorem StackAlloc_FreeToMarker_marker_in_aligned_range (s s2 : TStack_alloc)
    (marker : Nat) (hInv : Invariant s)
    (h : StackAlloc_FreeToMarker (some s) marker = (STACK_ALLOC_OK, some s2)) :
    GetAlignedStart s ≤ marker ∧ marker < s.current ∧
    s2 = { s with current := marker } ∧ GetAlignedStart s2 ≤ s2.current := by
  rw [StackAlloc_FreeToMarker_eq] at h
  split at h
  next h0 => simp [STACK_ALLOC_ERROR_INVALID_PARAM, STACK_ALLOC_OK] at h
  next h0 =>
    split at h
    next hbad => simp [STACK_ALLOC_ERROR_INVALID_MARKER, STACK_ALLOC_OK] at h
    next hbad =>
      simp only [Prod.mk.injEq, Option.some.injEq] at h
      obtain ⟨-, hs2⟩ := h
      subst hs2
      push_neg at hbad
      have hge := AlignUp_le_of_aligned s.buffer_start marker hInv.1 hbad.2.2 hbad.1
      exact ⟨hge, hbad.2.1, rfl, hge⟩

/-- Witness for C10 at concrete inputs. -/
theorem StackAlloc_FreeToMarker_marker_in_aligned_range_witness :
    GetAlignedStart ⟨8, 64, 32, 56⟩ ≤ 16 ∧ (16 : Nat) < 32 ∧
    (⟨8, 64, 16, 56⟩ : TStack_alloc) = ⟨8, 64, 16, 56⟩ ∧
    GetAlignedStart ⟨8, 64, 16, 56⟩ ≤ 16 :=
  StackAlloc_FreeToMarker_marker_in_aligned_range ⟨8, 64, 32, 56⟩ ⟨8, 64, 16, 56⟩ 16
    (by decide) (by decide)

/-- Claim C7: `StackAlloc_Calloc` returns none when `num = 0`, when `size = 0`, or when
`num > SIZE_MAX / size` (the division-based overflow guard); otherwise it delegates to
`StackAlloc_Alloc` with `total = num * size`, propagates none on failure, and on success
every byte of the returned region reads as zero. -/
theorem StackAlloc_Calloc_spec (sa : Option TStack_alloc) (num size : Nat)
    (mem : Nat → Nat) :
    (num = 0 ∨ size = 0 → StackAlloc_Calloc sa num size mem = (none, sa, mem)) ∧
    (size ≠ 0 → SIZE_MAX / size < num →
       StackAlloc_Calloc sa num size mem = (none, sa, mem)) ∧
    (num ≠ 0 → size ≠ 0 → num ≤ SIZE_MAX / size →
       (StackAlloc_Calloc sa num size mem).1 = (StackAlloc_Alloc sa (num * size)).1 ∧
       (StackAlloc_Calloc sa num size mem).2.1 = (StackAlloc_Alloc sa (num * size)).2 ∧
       ((StackAlloc_Alloc sa (num * size)).1 = none →
          (StackAlloc_Calloc sa num size mem).2.2 = mem) ∧
       (∀ p a, (StackAlloc_Alloc sa (num * size)).1 = some p →
          p ≤ a → a < p + num * size →
          (StackAlloc_Calloc sa num size mem).2.2 a = 0)) := by
  refine ⟨?_, ?_, ?_⟩
  · intro h
    simp [StackAlloc_Calloc, h]
  · intro hs hov
    have h1 : ¬(num = 0 ∨ size = 0) := by
      rintro (rfl | rfl)
      · exact absurd hov (Nat.not_lt.mpr (Nat.zero_le _))
      · exact hs rfl
    simp [StackAlloc_Calloc, h1, hov]
  · intro hn hs hle
    have h1 : ¬(num = 0 ∨ size = 0) := by simp [hn, hs]
    have h2 : ¬(num > SIZE_MAX / size) := Nat.not_lt.mpr hle
    have hmul : num * size ≤ SIZE_MAX :=
      (Nat.le_div_iff_mul_le (Nat.pos_of_ne_zero hs)).mp hle
    have htot : (num * size) % U32 = num * size := by
      have : num * size < U32 := by
        simp only [SIZE_MAX, U32] at *
        omega
      exact Nat.mod_eq_of_lt this
    rcases hA : StackAlloc_Alloc sa (num * size) with ⟨q, sa2⟩
    cases q with
    | none =>
      have hCeq : StackAlloc_Calloc sa num size mem = (none, sa2, mem) := by
        simp [StackAlloc_Calloc, h1, h2, htot, hA]
      simp [hCeq]
    | some q =>
      have hCeq : StackAlloc_Calloc sa num size mem =
          (some q, sa2, mem_set mem q 0 (num * size)) := by
        simp [StackAlloc_Calloc, h1, h2, htot, hA]
      rw [hCeq]
      refine ⟨rfl, rfl, ?_, ?_⟩
      · intro hcontra
        simp at hcontra
      · intro p a hp hpa hap
        have hq : q = p := by simpa using hp
        subst hq
        simp only [mem_set]
        rw [if_pos ⟨hpa, hap⟩]

/-- Witness for C7 at concrete inputs: a 3-by-4-byte zeroed allocation out of an 8-aligned
56-byte arena. -/
theorem StackAlloc_Calloc_spec_witness :
    ((StackAlloc_Calloc (some ⟨8, 64, 8, 56⟩) 3 4 (fun _ => 7)).1 =
       (StackAlloc_Alloc (some ⟨8, 64, 8, 56⟩) 12).1) ∧
    (StackAlloc_Calloc (some ⟨8, 64, 8, 56⟩) 3 4 (fun _ => 7)).2.2 10 = 0 := by
  have h := (StackAlloc_Calloc_spec (some ⟨8, 64, 8, 56⟩) 3 4 (fun _ => 7)).2.2
    (by decide) (by decide) (by decide)
  exact ⟨h.1, h.2.2.2 8 10 (by decide) (by decide) (by decide)⟩

/-- Claim C9 (implicit): when `StackAlloc_Init` returns `OUT_OF_MEMORY` the instance is
not left unchanged — `buffer_start`, `buffer_end` and `capacity` have already been
stamped with the new values and `current` has been set to the aligned start, which is at
or past `buffer_end`; only the `INVALID_PARAM` path leaves the instance (and memory)
unmodified. -/
theorem StackAlloc_Init_error_paths :
    (∀ s buffer buffer_size mem,
        (StackAlloc_Init (some s) buffer buffer_size mem).1 =
          STACK_ALLOC_ERROR_OUT_OF_MEMORY →
        (StackAlloc_Init (some s) buffer buffer_size mem).2.1 =
          some { buffer_start := buffer, buffer_end := (buffer + buffer_size) % U32,
                 current := AlignUp buffer STACK_ALLOC_ALIGNMENT,
                 capacity := buffer_size } ∧
        (buffer + buffer_size) % U32 ≤ AlignUp buffer STACK_ALLOC_ALIGNMENT) ∧
    (∀ s buffer buffer_size mem,
        (StackAlloc_Init (some s) buffer buffer_size mem).1 =
          STACK_ALLOC_ERROR_INVALID_PARAM →
        (StackAlloc_Init (some s) buffer buffer_size mem).2.1 = some s ∧
        (StackAlloc_Init (some s) buffer buffer_size mem).2.2 = mem) := by
  constructor
  · intro s buffer buffer_size mem h
    by_cases h0 : buffer = 0 ∨ buffer_size < STACK_ALLOC_ALIGNMENT
    · rw [StackAlloc_Init_eq] at h
      simp [h0, STACK_ALLOC_ERROR_INVALID_PARAM, STACK_ALLOC_ERROR_OUT_OF_MEMORY] at h
    · by_cases h1 : (buffer + buffer_size) % U32 ≤ AlignUp buffer STACK_ALLOC_ALIGNMENT
      · constructor
        · simp [StackAlloc_Init_eq, h0, h1]
        · exact h1
      · rw [StackAlloc_Init_eq] at h
        simp [h0, h1, STACK_ALLOC_OK, STACK_ALLOC_ERROR_OUT_OF_MEMORY] at h
  · intro s buffer buffer_size mem h
    by_cases h0 : buffer = 0 ∨ buffer_size < STACK_ALLOC_ALIGNMENT
    · constructor
      · simp [StackAlloc_Init_eq, h0]
      · simp [StackAlloc_Init_eq, h0]
    · rw [StackAlloc_Init_eq] at h
      by_cases h1 : (buffer + buffer_size) % U32 ≤ AlignUp buffer STACK_ALLOC_ALIGNMENT
      · simp [h0, h1, STACK_ALLOC_ERROR_INVALID_PARAM,
          STACK_ALLOC_ERROR_OUT_OF_MEMORY] at h
      · simp [h0, h1, STACK_ALLOC_ERROR_INVALID_PARAM, STACK_ALLOC_OK] at h

/-- Witness for C9: a buffer whose one-past-end pointer wraps makes `Init` return
`OUT_OF_MEMORY` with the fields already stamped; a NULL buffer leaves the instance
unchanged. -/
theorem StackAlloc_Init_error_paths_witness :
    ((StackAlloc_Init (some ⟨0, 0, 0, 0⟩) 4294967280 32 (fun _ => 0)).2.1 =
       some { buffer_start := 4294967280, buffer_end := (4294967280 + 32) % U32,
              current := AlignUp 4294967280 STACK_ALLOC_ALIGNMENT, capacity := 32 } ∧
     (4294967280 + 32) % U32 ≤ AlignUp 4294967280 STACK_ALLOC_ALIGNMENT) ∧
    (StackAlloc_Init (some ⟨1, 2, 3, 4⟩) 0 64 (fun _ => 0)).2.1 = some ⟨1, 2, 3, 4⟩ := by
  have h := StackAlloc_Init_error_paths
  have h1 := h.1 ⟨0, 0, 0, 0⟩ 4294967280 32 (fun _ => 0) (by decide)
  have h2 := h.2 ⟨1, 2, 3, 4⟩ 0 64 (fun _ => 0) (by decide)
  exact ⟨h1, h2.1⟩
